import Mathlib

/-!
Verification development for the ccusage_gui pipeline
(data_loader.py, cost_calculator.py, reports.py).

The Python source is shallowly embedded:
- Python naive datetimes are modelled at second granularity by the
  structure PyDateTime (proleptic Gregorian calendar, same as Python
  datetime/date); datetime comparison and subtraction go through the
  tick count dtTicks, which agrees with Python on all valid datetimes.
- Python float arithmetic is modelled exactly over the rationals.
- Python dicts are modelled as association lists in insertion order
  (CPython dicts preserve insertion order, so iteration order and the
  first-match semantics of the source are captured faithfully).
- JSON values decoded by json.loads are modelled by the inductive
  JsonVal, with numbers restricted to integers (the token fields and
  epoch timestamps the source reads are integers).
- Python list.sort is a stable sort; it is modelled by the stable
  insertion sort stableSort below, which agrees with any stable sort
  with respect to a total preorder.
-/

namespace CCUsage

/-! ## Calendar arithmetic (proleptic Gregorian, as Python datetime/date) -/

/-- Days since 1970-01-01 of a civil date (Hinnant days-from-civil algorithm,
with floor division). -/
def daysFromCivil (y m d : Int) : Int :=
  let y2 : Int := if m ≤ 2 then y - 1 else y
  let era : Int := y2.fdiv 400
  let yoe : Int := y2 - era * 400
  let doy : Int := (153 * (m + (if m > 2 then -3 else 9)) + 2).fdiv 5 + d - 1
  let doe : Int := yoe * 365 + yoe.fdiv 4 - yoe.fdiv 100 + doy
  era * 146097 + doe - 719468

/-- Civil date (year, month, day) of a day count since 1970-01-01
(Hinnant civil-from-days algorithm). -/
def civilFromDays (z0 : Int) : Int × Int × Int :=
  let z : Int := z0 + 719468
  let era : Int := z.fdiv 146097
  let doe : Int := z - era * 146097
  let yoe : Int := (doe - doe.fdiv 1460 + doe.fdiv 36524 - doe.fdiv 146096).fdiv 365
  let y : Int := yoe + era * 400
  let doy : Int := doe - (365 * yoe + yoe.fdiv 4 - yoe.fdiv 100)
  let mp : Int := (5 * doy + 2).fdiv 153
  let d : Int := doy - (153 * mp + 2).fdiv 5 + 1
  let m : Int := mp + (if mp < 10 then 3 else -9)
  (if m ≤ 2 then y + 1 else y, m, d)

/-- Weekday with Monday = 0, as Python date.weekday()
(1970-01-01 was a Thursday, weekday 3). -/
def pyWeekday (y m d : Int) : Int :=
  (daysFromCivil y m d + 3).emod 7

/-- Python naive datetime at second granularity. -/
structure PyDateTime where
  year : Int
  month : Int
  day : Int
  hour : Int
  minute : Int
  second : Int
deriving DecidableEq, Repr

/-- Seconds since 1970-01-01T00:00:00 of a datetime. On valid datetimes this
is monotone in the lexicographic field order, so comparisons through it agree
with Python datetime comparison. -/
def dtTicks (t : PyDateTime) : Int :=
  daysFromCivil t.year t.month t.day * 86400 + t.hour * 3600 + t.minute * 60 + t.second

/-- Python datetime subtraction, as a timedelta measured in seconds. -/
def dtSub (a b : PyDateTime) : Int :=
  dtTicks a - dtTicks b

/-- Python datetime.fromtimestamp for an integer epoch-second count
(the local timezone of the source is modelled as UTC). -/
def pyFromTimestamp (n : Int) : PyDateTime :=
  let z : Int := n.fdiv 86400
  let c : Int × Int × Int := civilFromDays z
  let sod : Int := n.emod 86400
  ⟨c.1, c.2.1, c.2.2, sod.fdiv 3600, (sod.emod 3600).fdiv 60, sod.emod 60⟩

/-! ## String helpers (Python substring and lower-casing) -/

/-- Boolean list-prefix test. -/
def isPrefixList : List Char → List Char → Bool
  | [], _ => true
  | _ :: _, [] => false
  | a :: as, b :: bs => a == b && isPrefixList as bs

/-- Boolean contiguous-sublist test. -/
def containsList : List Char → List Char → Bool
  | needle, [] => needle.isEmpty
  | needle, c :: rest => isPrefixList needle (c :: rest) || containsList needle rest

/-- Python substring containment: needle in hay. -/
def strContains (hay needle : String) : Bool :=
  containsList needle.data hay.data

/-- Python str.lower (the model names in scope are ASCII). -/
def pyLower (s : String) : String :=
  String.mk (s.data.map Char.toLower)

/-! ## JSON values (output of json.loads), with Python builtin conversions -/

/-- JSON value as decoded by json.loads. Numbers are restricted to integers:
every numeric field the source reads (token counts, epoch timestamps) is an
integer in the recognized log schemas. -/
inductive JsonVal where
  | null : JsonVal
  | bool (b : Bool) : JsonVal
  | num (n : Int) : JsonVal
  | str (s : String) : JsonVal
  | arr (elems : List JsonVal) : JsonVal
  | obj (fields : List (String × JsonVal)) : JsonVal

/-- Python truthiness of a JSON value (None, False, 0, empty string, empty
list and empty dict are falsy). -/
def JsonVal.truthy : JsonVal → Bool
  | .null => false
  | .bool b => b
  | .num n => n != 0
  | .str s => !s.isEmpty
  | .arr elems => !elems.isEmpty
  | .obj fields => !fields.isEmpty

/-- Dict field lookup: data[key] when present. CPython dicts have unique keys
in insertion order; the association lists used here take the first binding. -/
def jGet (fields : List (String × JsonVal)) (key : String) : Option JsonVal :=
  match fields with
  | [] => none
  | (k, v) :: rest => if k = key then some v else jGet rest key

/-- Dict lookup with default: data.get(key, dflt). -/
def jGetD (fields : List (String × JsonVal)) (key : String) (dflt : JsonVal) : JsonVal :=
  (jGet fields key).getD dflt

/-- Generic dict lookup over an insertion-ordered association list
(first binding wins, as CPython dict keys are unique). -/
def jLookup {α : Type} (fields : List (String × α)) (key : String) : Option α :=
  match fields with
  | [] => none
  | (k, v) :: rest => if k = key then some v else jLookup rest key

mutual

/-- Python repr of a JSON value (string escaping inside quotes is not
modelled; no string in scope needs escaping). -/
def pyRepr : JsonVal → String
  | .null => "None"
  | .bool b => if b then "True" else "False"
  | .num n => toString n
  | .str s => "\x27" ++ s ++ "\x27"
  | .arr elems => "[" ++ pyReprSeq elems ++ "]"
  | .obj fields => "\x7b" ++ pyReprFieldsSeq fields ++ "\x7d"

/-- Comma-separated reprs of list elements. -/
def pyReprSeq : List JsonVal → String
  | [] => ""
  | [x] => pyRepr x
  | x :: y :: rest => pyRepr x ++ ", " ++ pyReprSeq (y :: rest)

/-- Comma-separated reprs of dict items. -/
def pyReprFieldsSeq : List (String × JsonVal) → String
  | [] => ""
  | [(k, v)] => "\x27" ++ k ++ "\x27: " ++ pyRepr v
  | (k, v) :: y :: rest => "\x27" ++ k ++ "\x27: " ++ pyRepr v ++ ", " ++ pyReprFieldsSeq (y :: rest)

end

/-- Python str() of a JSON value. -/
def pyStr : JsonVal → String
  | .str s => s
  | v => pyRepr v

/-- Digits of a character list read as a natural number; none unless the list
is nonempty and all digits. -/
def parseDigits : List Char → Option Nat
  | [] => none
  | cs =>
    if cs.all Char.isDigit then
      some (cs.foldl (fun acc c => acc * 10 + (c.toNat - 48)) 0)
    else
      none

/-- Python int() applied to a JSON value; none models a raised exception.
True and False convert as 1 and 0 (bool is an int subtype in Python).
String conversion is modelled for an optional sign followed by digits
(surrounding whitespace and underscore separators are not modelled). -/
def pyInt : JsonVal → Option Int
  | .num n => some n
  | .bool b => some (if b then 1 else 0)
  | .str s =>
    match s.data with
    | '-' :: rest => (parseDigits rest).map (fun n => -(n : Int))
    | '+' :: rest => (parseDigits rest).map (fun n => (n : Int))
    | cs => (parseDigits cs).map (fun n => (n : Int))
  | _ => none

/-! ## Data model (data_loader.UsageRecord, cost_calculator dataclasses) -/

/-- UsageRecord from data_loader.py. The project_id, project_name,
message_id and conversation_id fields are annotated Optional[str] in the
source but can receive the raw JSON value of a dict get, so they are
modelled as optional JSON values. -/
structure UsageRecord where
  timestamp : PyDateTime
  session_id : String
  model : String
  input_tokens : Int
  output_tokens : Int
  cache_creation_tokens : Int
  cache_read_tokens : Int
  project_id : Option JsonVal
  project_name : Option JsonVal
  message_id : Option JsonVal
  conversation_id : Option JsonVal

/-- Derived total_tokens property of UsageRecord. -/
def UsageRecord.total_tokens (r : UsageRecord) : Int :=
  r.input_tokens + r.output_tokens + r.cache_creation_tokens + r.cache_read_tokens

/-- ModelPricing from cost_calculator.py; Python float rates are modelled as
exact rationals. -/
structure ModelPricing where
  model_name : String
  input_price_per_1k : ℚ
  output_price_per_1k : ℚ
  cache_creation_price_per_1k : ℚ
  cache_read_price_per_1k : ℚ
  currency : String
  last_updated : Option PyDateTime
deriving DecidableEq

/-- CostCalculation from cost_calculator.py. -/
structure CostCalculation where
  input_cost : ℚ
  output_cost : ℚ
  cache_creation_cost : ℚ
  cache_read_cost : ℚ
  total_cost : ℚ
  currency : String
  model : String
deriving DecidableEq

/-! ## CostCalculator -/

/-- Built-in DEFAULT_PRICING table of CostCalculator, in source order; the
source dataclass defaults currency to USD and last_updated to None. -/
def DEFAULT_PRICING : List (String × ModelPricing) :=
  [("claude-3-opus-20240229",
    ⟨"claude-3-opus-20240229", 15, 75, 18.75, 1.5, "USD", none⟩),
   ("claude-3-5-sonnet-20241022",
    ⟨"claude-3-5-sonnet-20241022", 3, 15, 3.75, 0.3, "USD", none⟩),
   ("claude-3-haiku-20240307",
    ⟨"claude-3-haiku-20240307", 0.25, 1.25, 0.3, 0.03, "USD", none⟩)]

/-- CostCalculator instance state. The pricing cache dict is modelled as an
association list in insertion order. Construction-time file and network
effects (cache loading, refresh) are outside the model; the claims below
quantify over every reachable cache content. -/
structure CostCalculator where
  mode : String
  offline : Bool
  currency : String
  pricing_cache : List (String × ModelPricing)
  last_pricing_update : Option PyDateTime

/-- CostCalculator.get_model_pricing: exact dict match, then substring match
in either direction over the cached keys in mapping order (first match wins),
then the family fallback on the lower-cased name, then None. -/
def CostCalculator.get_model_pricing (c : CostCalculator) (model_name : String) :
    Option ModelPricing :=
  match jLookup c.pricing_cache model_name with
  | some pricing => some pricing
  | none =>
    match c.pricing_cache.find?
        (fun kv => strContains kv.1 model_name || strContains model_name kv.1) with
    | some kv => some kv.2
    | none =>
      if strContains (pyLower model_name) "opus" then
        jLookup DEFAULT_PRICING "claude-3-opus-20240229"
      else if strContains (pyLower model_name) "sonnet" then
        jLookup DEFAULT_PRICING "claude-3-5-sonnet-20241022"
      else if strContains (pyLower model_name) "haiku" then
        jLookup DEFAULT_PRICING "claude-3-haiku-20240307"
      else
        none

/-- CostCalculator.calculate_cost: per-bucket cost is (tokens / 1000) times
the per-1k rate; total is the sum of the four; currency comes from the
resolved pricing entry. None when no pricing resolves. -/
def CostCalculator.calculate_cost (c : CostCalculator) (record : UsageRecord) :
    Option CostCalculation :=
  match c.get_model_pricing record.model with
  | none => none
  | some pricing =>
    let input_cost : ℚ := ((record.input_tokens : ℚ) / 1000) * pricing.input_price_per_1k
    let output_cost : ℚ := ((record.output_tokens : ℚ) / 1000) * pricing.output_price_per_1k
    let cache_creation_cost : ℚ :=
      ((record.cache_creation_tokens : ℚ) / 1000) * pricing.cache_creation_price_per_1k
    let cache_read_cost : ℚ :=
      ((record.cache_read_tokens : ℚ) / 1000) * pricing.cache_read_price_per_1k
    let total_cost : ℚ := input_cost + output_cost + cache_creation_cost + cache_read_cost
    some ⟨input_cost, output_cost, cache_creation_cost, cache_read_cost,
          total_cost, pricing.currency, record.model⟩

/-- Result shape of CostCalculator.calculate_total_cost. The source returns
the five totals and the model breakdown in a dict and logs the
failed-calculation count; the count is carried here as a field so the logged
value can be reasoned about. -/
structure TotalCosts where
  input_cost : ℚ
  output_cost : ℚ
  cache_creation_cost : ℚ
  cache_read_cost : ℚ
  total_cost : ℚ
  model_breakdown : List (String × ℚ)
  failed_calculations : Nat
deriving DecidableEq

/-- Per-model cost accumulation of calculate_total_cost: a missing key is
created at 0.0 and then incremented, preserving dict insertion order. -/
def bumpModelCost (mc : List (String × ℚ)) (model : String) (v : ℚ) :
    List (String × ℚ) :=
  match mc with
  | [] => [(model, 0 + v)]
  | (k, c) :: rest =>
    if k = model then (k, c + v) :: rest else (k, c) :: bumpModelCost rest model v

/-- One loop iteration of CostCalculator.calculate_total_cost. -/
def totalCostStep (c : CostCalculator) (acc : TotalCosts) (record : UsageRecord) :
    TotalCosts :=
  match c.calculate_cost record with
  | some cc =>
    { input_cost := acc.input_cost + cc.input_cost
      output_cost := acc.output_cost + cc.output_cost
      cache_creation_cost := acc.cache_creation_cost + cc.cache_creation_cost
      cache_read_cost := acc.cache_read_cost + cc.cache_read_cost
      total_cost := acc.total_cost + cc.total_cost
      model_breakdown := bumpModelCost acc.model_breakdown record.model cc.total_cost
      failed_calculations := acc.failed_calculations }
  | none => { acc with failed_calculations := acc.failed_calculations + 1 }

/-- CostCalculator.calculate_total_cost over a record list. -/
def CostCalculator.calculate_total_cost (c : CostCalculator)
    (records : List UsageRecord) : TotalCosts :=
  records.foldl (totalCostStep c) ⟨0, 0, 0, 0, 0, [], 0⟩

/-- CostCalculator._is_pricing_stale: True when there is no last update, else
True exactly when the age now minus last update strictly exceeds
max_age_days days (timedelta comparison, here in seconds). -/
def CostCalculator.is_pricing_stale (c : CostCalculator) (now : PyDateTime)
    (max_age_days : Int) : Bool :=
  match c.last_pricing_update with
  | none => true
  | some lu => decide (dtTicks now - dtTicks lu > max_age_days * 86400)

/-! ## DataLoader: timestamp, model, token, session and project extraction -/

/-- Gregorian leap-year test. -/
def isLeapYear (y : Int) : Bool :=
  y.emod 4 == 0 && (y.emod 100 != 0 || y.emod 400 == 0)

/-- Number of days in a month. -/
def daysInMonth (y m : Int) : Int :=
  if m == 2 then (if isLeapYear y then 29 else 28)
  else if m == 4 || m == 6 || m == 9 || m == 11 then 30
  else 31

/-- Decimal digit value of a character, if it is a digit. -/
def digitVal (c : Char) : Option Nat :=
  if c.isDigit then some (c.toNat - 48) else none

/-- Syntactic check of a trailing UTC-offset suffix +HH:MM or -HH:MM
(datetime.fromisoformat parses the offset into tzinfo; the wall-clock
fields the pipeline reads are unaffected, so the offset value is dropped). -/
def isoOffsetOk : List Char → Bool
  | [] => true
  | sgn :: h1 :: h2 :: ':' :: m1 :: m2 :: [] =>
    (sgn == '+' || sgn == '-') && h1.isDigit && h2.isDigit && m1.isDigit && m2.isDigit
  | _ => false

/-- Syntactic check of an optional fractional-seconds part (exactly 3 or 6
digits, as datetime.fromisoformat requires) followed by an optional offset;
sub-second precision is dropped by the second-granularity datetime model. -/
def isoFracOffsetOk : List Char → Bool
  | '.' :: rest =>
    let ds := rest.takeWhile Char.isDigit
    (ds.length == 3 || ds.length == 6) && isoOffsetOk (rest.dropWhile Char.isDigit)
  | cs => isoOffsetOk cs

/-- Time-of-day part HH:MM or HH:MM:SS of an ISO string, with optional
fraction and offset after the seconds. -/
def parseIsoTime : List Char → Option (Int × Int × Int)
  | h1 :: h2 :: ':' :: m1 :: m2 :: rest =>
    match digitVal h1, digitVal h2, digitVal m1, digitVal m2 with
    | some a, some b, some c, some d =>
      let hh : Int := a * 10 + b
      let mm : Int := c * 10 + d
      (match rest with
       | [] => if decide (hh < 24) && decide (mm < 60) then some (hh, mm, 0) else none
       | ':' :: s1 :: s2 :: rest2 =>
         match digitVal s1, digitVal s2 with
         | some e, some f =>
           let ss : Int := e * 10 + f
           if decide (hh < 24) && decide (mm < 60) && decide (ss < 60) &&
               isoFracOffsetOk rest2 then
             some (hh, mm, ss)
           else none
         | _, _ => none
       | _ => none)
    | _, _, _, _ => none
  | _ => none

/-- Python datetime.fromisoformat, modelled for the forms YYYY-MM-DD and
YYYY-MM-DD(T or space)HH:MM(:SS(.fff(fff))?)?(+HH:MM)? with calendar
validation; none models a raised ValueError. -/
def pyFromIsoformat (s : String) : Option PyDateTime :=
  match s.data with
  | y1 :: y2 :: y3 :: y4 :: '-' :: m1 :: m2 :: '-' :: d1 :: d2 :: rest =>
    match digitVal y1, digitVal y2, digitVal y3, digitVal y4,
          digitVal m1, digitVal m2, digitVal d1, digitVal d2 with
    | some a, some b, some c, some d, some e, some f, some g, some h =>
      let y : Int := ((a * 10 + b) * 10 + c) * 10 + d
      let mo : Int := e * 10 + f
      let da : Int := g * 10 + h
      if decide (1 ≤ y) && decide (1 ≤ mo) && decide (mo ≤ 12) &&
          decide (1 ≤ da) && decide (da ≤ daysInMonth y mo) then
        match rest with
        | [] => some ⟨y, mo, da, 0, 0, 0⟩
        | sep :: timeChars =>
          if sep == 'T' || sep == ' ' then
            (parseIsoTime timeChars).map (fun t => ⟨y, mo, da, t.1, t.2.1, t.2.2⟩)
          else none
      else none
    | _, _, _, _, _, _, _, _ => none
  | _ => none

/-- One timestamp-field parse attempt of DataLoader._extract_timestamp:
strings ending in Z have every Z replaced by +00:00 before fromisoformat;
other strings go to fromisoformat directly; ints (including bools, an int
subtype) go to fromtimestamp; other values match no isinstance branch. -/
def parseTimestampValue : JsonVal → Option PyDateTime
  | .str s =>
    if s.endsWith "Z" then pyFromIsoformat (s.replace "Z" "+00:00")
    else pyFromIsoformat s
  | .num n => some (pyFromTimestamp n)
  | .bool b => some (pyFromTimestamp (if b then 1 else 0))
  | _ => none

/-- Field loop of DataLoader._extract_timestamp: a present field whose value
fails to parse falls through to the next field. -/
def timestampFirst (data : List (String × JsonVal)) : List String → Option PyDateTime
  | [] => none
  | f :: rest =>
    match jGet data f with
    | some v =>
      (match parseTimestampValue v with
       | some t => some t
       | none => timestampFirst data rest)
    | none => timestampFirst data rest

/-- DataLoader._extract_timestamp. -/
def extract_timestamp (data : List (String × JsonVal)) : Option PyDateTime :=
  timestampFirst data ["timestamp", "created_at", "time"]

/-- Fallback loop of DataLoader._extract_model over the direct model fields,
returning str of the first present truthy value. -/
def modelFallback (data : List (String × JsonVal)) : List String → Option String
  | [] => none
  | f :: rest =>
    match jGet data f with
    | some v => if v.truthy then some (pyStr v) else modelFallback data rest
    | none => modelFallback data rest

/-- DataLoader._extract_model: message.model first when message is a dict
holding a truthy model, then the direct model and model_name fields. -/
def extract_model (data : List (String × JsonVal)) : Option String :=
  match jGet data "message" with
  | some (.obj msg) =>
    (match jGet msg "model" with
     | some v =>
       if v.truthy then some (pyStr v)
       else modelFallback data ["model", "model_name"]
     | none => modelFallback data ["model", "model_name"])
  | _ => modelFallback data ["model", "model_name"]

/-- Token-count quadruple extracted by DataLoader._extract_tokens. -/
structure Tokens where
  input_tokens : Int
  output_tokens : Int
  cache_creation_tokens : Int
  cache_read_tokens : Int

/-- Token extraction from a message.usage dict (primary Claude Code schema):
int(usage.get(field, 0)) for each bucket; none models an int() exception,
which rejects the record without falling through to the other schemas. -/
def tokensFromMessageUsage (usage : List (String × JsonVal)) : Option Tokens :=
  (pyInt (jGetD usage "input_tokens" (.num 0))).bind fun i =>
  (pyInt (jGetD usage "output_tokens" (.num 0))).bind fun o =>
  (pyInt (jGetD usage "cache_creation_input_tokens" (.num 0))).bind fun cc =>
  (pyInt (jGetD usage "cache_read_input_tokens" (.num 0))).map fun cr =>
  ⟨i, o, cc, cr⟩

/-- First present field among a list of alternate names. -/
def firstFieldVal (usage : List (String × JsonVal)) : List String → Option JsonVal
  | [] => none
  | n :: rest =>
    match jGet usage n with
    | some v => some v
    | none => firstFieldVal usage rest

/-- One bucket of the top-level usage schema: int of the first present
alternate field, or 0 when none of the alternates is present. -/
def usageTokenField (usage : List (String × JsonVal)) (names : List String) : Option Int :=
  match firstFieldVal usage names with
  | some v => pyInt v
  | none => some 0

/-- Token extraction from a top-level usage dict with standard or alternate
field names. -/
def tokensFromUsage (usage : List (String × JsonVal)) : Option Tokens :=
  (usageTokenField usage ["input_tokens", "prompt_tokens"]).bind fun i =>
  (usageTokenField usage ["output_tokens", "completion_tokens"]).bind fun o =>
  (usageTokenField usage ["cache_creation_tokens", "cache_creation_input_tokens"]).bind fun cc =>
  (usageTokenField usage ["cache_read_tokens", "cache_read_input_tokens"]).map fun cr =>
  ⟨i, o, cc, cr⟩

/-- Token extraction from flat top-level fields, entered only when at least
one of input_tokens, output_tokens, total_tokens is present. -/
def tokensFromDirect (data : List (String × JsonVal)) : Option Tokens :=
  if (jGet data "input_tokens").isSome || (jGet data "output_tokens").isSome ||
      (jGet data "total_tokens").isSome then
    (pyInt (jGetD data "input_tokens" (.num 0))).bind fun i =>
    (pyInt (jGetD data "output_tokens" (.num 0))).bind fun o =>
    (pyInt (jGetD data "cache_creation_tokens" (.num 0))).bind fun cc =>
    (pyInt (jGetD data "cache_read_tokens" (.num 0))).map fun cr =>
    ⟨i, o, cc, cr⟩
  else none

/-- Branches of DataLoader._extract_tokens after the message.usage schema. -/
def extractTokensRest (data : List (String × JsonVal)) : Option Tokens :=
  match jGet data "usage" with
  | some (.obj usage) => tokensFromUsage usage
  | _ => tokensFromDirect data

/-- DataLoader._extract_tokens: message.usage schema first, then top-level
usage dict, then flat fields; none when no schema applies. -/
def extract_tokens (data : List (String × JsonVal)) : Option Tokens :=
  match jGet data "message" with
  | some (.obj msg) =>
    (match jGet msg "usage" with
     | some (.obj usage) => tokensFromMessageUsage usage
     | _ => extractTokensRest data)
  | _ => extractTokensRest data

/-- Fallback loop of DataLoader._extract_session_id over the alternate
session fields. -/
def sessionFallback (data : List (String × JsonVal)) : List String → String
  | [] => "unknown"
  | f :: rest =>
    match jGet data f with
    | some v => if v.truthy then pyStr v else sessionFallback data rest
    | none => sessionFallback data rest

/-- DataLoader._extract_session_id: sessionId first, then session_id,
conversation_id, thread_id, id; the string unknown when none is truthy. -/
def extract_session_id (data : List (String × JsonVal)) : String :=
  match jGet data "sessionId" with
  | some v =>
    if v.truthy then pyStr v
    else sessionFallback data ["session_id", "conversation_id", "thread_id", "id"]
  | none => sessionFallback data ["session_id", "conversation_id", "thread_id", "id"]

/-- Last path component, as pathlib name on a Windows-style path (both
separators recognized, trailing separators ignored; drive-only paths are out
of scope for the logs in question). -/
def lastPathComponent (s : String) : String :=
  ((((s.split (fun c => c == '/' || c == '\\')).filter
      (fun t => !t.isEmpty)).getLast?).getD "")

/-- First-occurrence replacement of str.replace(pat, rep, 1). -/
def replaceOnceL (pat rep : List Char) : List Char → List Char
  | [] => []
  | c :: rest =>
    if isPrefixList pat (c :: rest) then rep ++ (c :: rest).drop pat.length
    else c :: replaceOnceL pat rep rest

/-- Every-occurrence replacement of str.replace(pat, rep) for a nonempty
pattern. -/
def replaceAllL (pat rep : List Char) : List Char → List Char
  | [] => []
  | c :: rest =>
    if isPrefixList pat (c :: rest) && !pat.isEmpty then
      rep ++ replaceAllL pat rep (rest.drop (pat.length - 1))
    else
      c :: replaceAllL pat rep rest
termination_by l => l.length
decreasing_by
  · simp only [List.length_drop, List.length_cons]
    omega
  · simp only [List.length_cons]
    omega

/-- Directory-name transliteration of DataLoader._extract_project_info:
first double dash to drive colon backslash, next single dash to a space,
remaining dashes to slashes. -/
def decodeProjectDirName (parent_dir : String) : String :=
  String.mk (replaceAllL ['-'] ['/']
    (replaceOnceL ['-'] [' ']
      (replaceOnceL ['-', '-'] [':', '\\'] parent_dir.data)))

/-- DataLoader._extract_project_info, parameterized by the name of the
directory containing the log file (the only part of the file path the source
reads). Returns (project id, project name); none models the exception raised
by Path applied to a truthy non-string cwd value, which rejects the whole
record upstream. The separator normalization str(Path(cwd)) can perform is
not modelled; the cwd string is kept as written. -/
def extract_project_info (data : List (String × JsonVal))
    (file_parent_name : String) : Option (Option JsonVal × Option JsonVal) :=
  let step1 : Option (Option JsonVal × Option JsonVal) :=
    match jGet data "cwd" with
    | some v =>
      if v.truthy then
        match v with
        | .str s => some (some (.str s), some (.str (lastPathComponent s)))
        | _ => none
      else some (none, none)
    | none => some (none, none)
  match step1 with
  | none => none
  | some info1 =>
    let info2 : Option JsonVal × Option JsonVal :=
      match jGet data "project" with
      | some (.obj p) => (jGet p "id", jGet p "name")
      | some v => (some (.str (pyStr v)), info1.2)
      | none => info1
    let nameTruthy : Bool :=
      match info2.2 with
      | some v => v.truthy
      | none => false
    if !nameTruthy && !file_parent_name.isEmpty && file_parent_name ≠ "projects" then
      let idTruthy : Bool :=
        match info2.1 with
        | some v => v.truthy
        | none => false
      some (if idTruthy then info2.1 else some (.str file_parent_name),
            some (.str (decodeProjectDirName file_parent_name)))
    else
      some info2

/-- DataLoader._parse_usage_record: a record is produced only when the
timestamp, model and token extractions all succeed (and project-info
extraction does not raise); session id extraction is total. -/
def parse_usage_record (data : List (String × JsonVal))
    (file_parent_name : String) : Option UsageRecord :=
  match extract_timestamp data with
  | none => none
  | some timestamp =>
    match extract_model data with
    | none => none
    | some model =>
      match extract_tokens data with
      | none => none
      | some tokens =>
        match extract_project_info data file_parent_name with
        | none => none
        | some pinfo =>
          some ⟨timestamp, extract_session_id data, model,
                tokens.input_tokens, tokens.output_tokens,
                tokens.cache_creation_tokens, tokens.cache_read_tokens,
                pinfo.1, pinfo.2, jGet data "id", jGet data "conversation_id"⟩

/-! ## DataLoader: loading and the record cache -/

/-- One discovered JSONL file: the name of its containing directory and its
decoded lines. A line that is blank or not valid JSON is skipped by the
source with a log message and is not represented. A decoded line that is not
a JSON object always ends in the per-record exception handler (every field
access on it raises), so only object lines can contribute records. -/
structure DataFile where
  parent_name : String
  lines : List JsonVal

/-- DataLoader._parse_jsonl_file over the decoded lines of one file. -/
def parse_jsonl_file (f : DataFile) : List UsageRecord :=
  f.lines.foldr
    (fun line acc =>
      match line with
      | .obj fields =>
        (match parse_usage_record fields f.parent_name with
         | some r => r :: acc
         | none => acc)
      | _ => acc)
    []

/-- Stable insertion step: the new element goes after every element that
compares at or below it. -/
def insertStable {α : Type} (le : α → α → Bool) (x : α) : List α → List α
  | [] => [x]
  | y :: ys => if le y x then y :: insertStable le x ys else x :: y :: ys

/-- Stable sort with respect to a total preorder, as Python list.sort: every
stable sort agrees on its output, so this insertion sort is extensionally
the source sort. -/
def stableSort {α : Type} (le : α → α → Bool) (l : List α) : List α :=
  l.foldl (fun acc x => insertStable le x acc) []

/-- Timestamp ordering used by the record sort. -/
def recordLe (a b : UsageRecord) : Bool :=
  decide (dtTicks a.timestamp ≤ dtTicks b.timestamp)

/-- DataLoader instance state: the discovered files (directory scanning is
filesystem input, taken here as given) and the record cache. -/
structure DataLoader where
  data_files : List DataFile
  usage_cache : Option (List UsageRecord)

/-- DataLoader.load_usage_data: returns the cache when present and no forced
reload is requested; otherwise parses every file in order, concatenates,
sorts by timestamp and fills the cache. Returns the records with the
post-call loader state. -/
def DataLoader.load_usage_data (dl : DataLoader) (force_reload : Bool) :
    List UsageRecord × DataLoader :=
  match dl.usage_cache, force_reload with
  | some cached, false => (cached, dl)
  | _, _ =>
    let all_records := (dl.data_files.map parse_jsonl_file).flatten
    let sorted := stableSort recordLe all_records
    (sorted, { dl with usage_cache := some sorted })

/-! ## ReportGenerator -/

/-- Per-model entry of the model breakdown defaultdict in
ReportGenerator._create_report_entry. -/
structure ModelStats where
  tokens : Int
  input_tokens : Int
  output_tokens : Int
  cache_creation_tokens : Int
  cache_read_tokens : Int
  cost : ℚ
  count : Nat
deriving DecidableEq

/-- ReportEntry dataclass of reports.py. -/
structure ReportEntry where
  date : PyDateTime
  total_tokens : Int
  input_tokens : Int
  output_tokens : Int
  cache_creation_tokens : Int
  cache_read_tokens : Int
  total_cost : ℚ
  model_breakdown : List (String × ModelStats)
  record_count : Nat
deriving DecidableEq

/-- SessionReportEntry dataclass of reports.py (models_used is built from a
Python set, whose iteration order is implementation detail; it is modelled
in first-occurrence order). -/
structure SessionReportEntry where
  session_id : String
  start_time : PyDateTime
  end_time : PyDateTime
  duration_minutes : ℚ
  total_tokens : Int
  input_tokens : Int
  output_tokens : Int
  cache_creation_tokens : Int
  cache_read_tokens : Int
  total_cost : ℚ
  models_used : List String
  message_count : Nat
  project_id : Option JsonVal
  project_name : Option JsonVal

/-- BlockReportEntry dataclass of reports.py. -/
structure BlockReportEntry where
  block_start : PyDateTime
  block_end : PyDateTime
  block_number : Int
  total_tokens : Int
  input_tokens : Int
  output_tokens : Int
  cache_creation_tokens : Int
  cache_read_tokens : Int
  total_cost : ℚ
  sessions_count : Nat
  active_duration_minutes : ℚ
  is_current_block : Bool
deriving DecidableEq

/-- ReportGenerator._filter_by_date_range: inclusive on both ends, each
bound applied only when supplied. -/
def filter_by_date_range (records : List UsageRecord)
    (start_date end_date : Option PyDateTime) : List UsageRecord :=
  let f1 :=
    match start_date with
    | some sd => records.filter (fun r => decide (dtTicks sd ≤ dtTicks r.timestamp))
    | none => records
  match end_date with
  | some ed => f1.filter (fun r => decide (dtTicks r.timestamp ≤ dtTicks ed))
  | none => f1

/-- Appending a record to its group in a defaultdict(list): the group is
created at the end on first sight of the key, otherwise extended in place,
preserving dict insertion order. -/
def appendToGroup {κ : Type} [DecidableEq κ] :
    List (κ × List UsageRecord) → κ → UsageRecord → List (κ × List UsageRecord)
  | [], k, r => [(k, [r])]
  | (k1, g) :: rest, k, r =>
    if k1 = k then (k1, g ++ [r]) :: rest else (k1, g) :: appendToGroup rest k r

/-- Grouping loop shared by the report generators: records are appended to
the group of their key in input order. -/
def groupByKey {κ : Type} [DecidableEq κ] (key : UsageRecord → κ)
    (records : List UsageRecord) : List (κ × List UsageRecord) :=
  records.foldl (fun groups r => appendToGroup groups (key r) r) []

/-- Empty value a model breakdown defaultdict creates for a new key. -/
def emptyModelStats : ModelStats :=
  ⟨0, 0, 0, 0, 0, 0, 0⟩

/-- Per-record update of one model breakdown entry: token counts and record
count always accumulate; cost accumulates only when the per-record cost
calculation succeeds. -/
def ModelStats.addRecord (s : ModelStats) (c : CostCalculator) (r : UsageRecord) :
    ModelStats :=
  let s2 : ModelStats :=
    { tokens := s.tokens + r.total_tokens
      input_tokens := s.input_tokens + r.input_tokens
      output_tokens := s.output_tokens + r.output_tokens
      cache_creation_tokens := s.cache_creation_tokens + r.cache_creation_tokens
      cache_read_tokens := s.cache_read_tokens + r.cache_read_tokens
      cost := s.cost
      count := s.count + 1 }
  match c.calculate_cost r with
  | some cc => { s2 with cost := s2.cost + cc.total_cost }
  | none => s2

/-- One loop iteration of the model-breakdown construction. -/
def addToBreakdown (c : CostCalculator) :
    List (String × ModelStats) → UsageRecord → List (String × ModelStats)
  | [], r => [(r.model, emptyModelStats.addRecord c r)]
  | (k, s) :: rest, r =>
    if k = r.model then (k, s.addRecord c r) :: rest
    else (k, s) :: addToBreakdown c rest r

/-- ReportGenerator._create_report_entry: group totals, group cost from
calculate_total_cost, and the per-model breakdown. -/
def create_report_entry (c : CostCalculator) (date : PyDateTime)
    (records : List UsageRecord) : ReportEntry :=
  { date := date
    total_tokens := (records.map UsageRecord.total_tokens).sum
    input_tokens := (records.map UsageRecord.input_tokens).sum
    output_tokens := (records.map UsageRecord.output_tokens).sum
    cache_creation_tokens := (records.map UsageRecord.cache_creation_tokens).sum
    cache_read_tokens := (records.map UsageRecord.cache_read_tokens).sum
    total_cost := (c.calculate_total_cost records).total_cost
    model_breakdown := records.foldl (addToBreakdown c) []
    record_count := records.length }

/-- Date sort of the calendar report entries: stable, descending exactly
when the order argument is the string desc (CPython implements reverse
sorting stably in this sense). -/
def sortEntriesByDate (entries : List ReportEntry) (order : String) :
    List ReportEntry :=
  if order = "desc" then
    stableSort (fun a b => decide (dtTicks b.date ≤ dtTicks a.date)) entries
  else
    stableSort (fun a b => decide (dtTicks a.date ≤ dtTicks b.date)) entries

/-- ReportGenerator.generate_daily_report: filter, group by calendar date,
one entry per group anchored at midnight, sorted by date. -/
def generate_daily_report (c : CostCalculator) (records : List UsageRecord)
    (start_date end_date : Option PyDateTime) (order : String) :
    List ReportEntry :=
  let filtered := filter_by_date_range records start_date end_date
  let groups := groupByKey
    (fun r => (r.timestamp.year, r.timestamp.month, r.timestamp.day)) filtered
  let entries := groups.map
    (fun g => create_report_entry c ⟨g.1.1, g.1.2.1, g.1.2.2, 0, 0, 0⟩ g.2)
  sortEntriesByDate entries order

/-- ReportGenerator.generate_monthly_report: filter, group by (year, month),
one entry per group anchored at the first of the month, sorted by date. -/
def generate_monthly_report (c : CostCalculator) (records : List UsageRecord)
    (start_date end_date : Option PyDateTime) (order : String) :
    List ReportEntry :=
  let filtered := filter_by_date_range records start_date end_date
  let groups := groupByKey (fun r => (r.timestamp.year, r.timestamp.month)) filtered
  let entries := groups.map
    (fun g => create_report_entry c ⟨g.1.1, g.1.2, 1, 0, 0, 0⟩ g.2)
  sortEntriesByDate entries order

/-- ReportGenerator._get_week_start: go back (weekday - week_start_day) mod 7
days from the record date, then take midnight of that date. -/
def get_week_start (date : PyDateTime) (week_start_day : Int) : PyDateTime :=
  let days_since_start :=
    (pyWeekday date.year date.month date.day - week_start_day).emod 7
  let c := civilFromDays (daysFromCivil date.year date.month date.day - days_since_start)
  ⟨c.1, c.2.1, c.2.2, 0, 0, 0⟩

/-- ReportGenerator.generate_weekly_report: filter, group by week start,
one entry per group anchored at the week start, sorted by date. -/
def generate_weekly_report (c : CostCalculator) (records : List UsageRecord)
    (start_date end_date : Option PyDateTime) (week_start_day : Int)
    (order : String) : List ReportEntry :=
  let filtered := filter_by_date_range records start_date end_date
  let groups := groupByKey (fun r => get_week_start r.timestamp week_start_day) filtered
  let entries := groups.map (fun g => create_report_entry c g.1 g.2)
  sortEntriesByDate entries order

/-- Unique model names in first-occurrence order, standing in for
list(set(...)) whose iteration order Python leaves unspecified. -/
def dedupFirst : List String → List String → List String
  | _, [] => []
  | seen, x :: xs =>
    if seen.contains x then dedupFirst seen xs
    else x :: dedupFirst (x :: seen) xs

/-- ReportGenerator.generate_session_report: group by session id, sort each
session by timestamp, derive duration, totals, cost, models and first-record
project attribution, then sort sessions by start time. -/
def generate_session_report (c : CostCalculator) (records : List UsageRecord)
    (start_date end_date : Option PyDateTime) (order : String) :
    List SessionReportEntry :=
  let filtered := filter_by_date_range records start_date end_date
  let groups := groupByKey UsageRecord.session_id filtered
  let entries := groups.map (fun g =>
    let sorted := stableSort recordLe g.2
    let start_time := (sorted.head?.map UsageRecord.timestamp).getD ⟨1, 1, 1, 0, 0, 0⟩
    let end_time := (sorted.getLast?.map UsageRecord.timestamp).getD ⟨1, 1, 1, 0, 0, 0⟩
    { session_id := g.1
      start_time := start_time
      end_time := end_time
      duration_minutes := ((dtTicks end_time - dtTicks start_time : Int) : ℚ) / 60
      total_tokens := (sorted.map UsageRecord.total_tokens).sum
      input_tokens := (sorted.map UsageRecord.input_tokens).sum
      output_tokens := (sorted.map UsageRecord.output_tokens).sum
      cache_creation_tokens := (sorted.map UsageRecord.cache_creation_tokens).sum
      cache_read_tokens := (sorted.map UsageRecord.cache_read_tokens).sum
      total_cost := (c.calculate_total_cost sorted).total_cost
      models_used := dedupFirst [] (sorted.map UsageRecord.model)
      message_count := sorted.length
      project_id := ((sorted.head?.map UsageRecord.project_id).getD none)
      project_name := ((sorted.head?.map UsageRecord.project_name).getD none)
      : SessionReportEntry })
  if order = "desc" then
    stableSort (fun a b => decide (dtTicks b.start_time ≤ dtTicks a.start_time)) entries
  else
    stableSort (fun a b => decide (dtTicks a.start_time ≤ dtTicks b.start_time)) entries

/-- ReportGenerator._get_block_start: same calendar date, hour rounded down
to the nearest multiple of five, minutes and seconds zero. -/
def get_block_start (timestamp : PyDateTime) : PyDateTime :=
  ⟨timestamp.year, timestamp.month, timestamp.day,
   (timestamp.hour.fdiv 5) * 5, 0, 0⟩

/-- Block end: block start plus five hours. The starts the grouping produces
have hour at most 20, so adding five hours never crosses midnight and the
field-level addition matches timedelta addition. -/
def blockEnd (block_start : PyDateTime) : PyDateTime :=
  { block_start with hour := block_start.hour + 5 }

/-- ReportGenerator.generate_blocks_report: group by block start, derive
session count, active duration, totals, cost, the epoch-based block number
and the is-current flag, then sort by block start. The source reads the
clock for the is-current flag; the clock is a parameter here. -/
def generate_blocks_report (c : CostCalculator) (records : List UsageRecord)
    (start_date end_date : Option PyDateTime) (order : String)
    (current_time : PyDateTime) : List BlockReportEntry :=
  let filtered := filter_by_date_range records start_date end_date
  let groups := groupByKey (fun r => get_block_start r.timestamp) filtered
  let entries := groups.map (fun g =>
    let block_start := g.1
    let block_end := blockEnd block_start
    let sessions_count := (dedupFirst [] (g.2.map UsageRecord.session_id)).length
    let sorted := stableSort recordLe g.2
    let active_duration : ℚ :=
      if g.2.length > 1 then
        (((sorted.getLast?.map (fun r => dtTicks r.timestamp)).getD 0 -
          (sorted.head?.map (fun r => dtTicks r.timestamp)).getD 0 : Int) : ℚ) / 60
      else 0
    { block_start := block_start
      block_end := block_end
      block_number := ⌊((dtTicks block_start : ℚ) / 3600) / 5⌋
      total_tokens := (g.2.map UsageRecord.total_tokens).sum
      input_tokens := (g.2.map UsageRecord.input_tokens).sum
      output_tokens := (g.2.map UsageRecord.output_tokens).sum
      cache_creation_tokens := (g.2.map UsageRecord.cache_creation_tokens).sum
      cache_read_tokens := (g.2.map UsageRecord.cache_read_tokens).sum
      total_cost := (c.calculate_total_cost g.2).total_cost
      sessions_count := sessions_count
      active_duration_minutes := active_duration
      is_current_block :=
        decide (dtTicks block_start ≤ dtTicks current_time) &&
        decide (dtTicks current_time < dtTicks block_end)
      : BlockReportEntry })
  if order = "desc" then
    stableSort (fun a b => decide (dtTicks b.block_start ≤ dtTicks a.block_start)) entries
  else
    stableSort (fun a b => decide (dtTicks a.block_start ≤ dtTicks b.block_start)) entries

/-! ## Concrete fixtures used by the claim theorems and witnesses -/

/-- Record constructor shorthand for fixtures without project attribution. -/
def mkRec (ts : PyDateTime) (sid model : String) (i o cc cr : Int) : UsageRecord :=
  ⟨ts, sid, model, i, o, cc, cr, none, none, none, none⟩

/-- Calculator seeded with the built-in default pricing table; its own
currency is deliberately different from the USD of the pricing entries. -/
def sonnetCalc : CostCalculator :=
  ⟨"auto", false, "EUR", DEFAULT_PRICING, none⟩

/-- Opus entry of DEFAULT_PRICING. -/
def opusDefaultPricing : ModelPricing :=
  ⟨"claude-3-opus-20240229", 15, 75, 18.75, 1.5, "USD", none⟩

/-- Sonnet entry of DEFAULT_PRICING. -/
def sonnetDefaultPricing : ModelPricing :=
  ⟨"claude-3-5-sonnet-20241022", 3, 15, 3.75, 0.3, "USD", none⟩

/-- Haiku entry of DEFAULT_PRICING. -/
def haikuDefaultPricing : ModelPricing :=
  ⟨"claude-3-haiku-20240307", 0.25, 1.25, 0.3, 0.03, "USD", none⟩

/-- Sonnet record with 1000 input and 500 output tokens, no cache tokens. -/
def sonnetExampleRecord : UsageRecord :=
  mkRec ⟨2024, 3, 15, 6, 10, 0⟩ "s1" "claude-3-5-sonnet-20241022" 1000 500 0 0

/-- Three same-day records at 06:10, 07:45 and 11:02 for the blocks claim. -/
def blockRecords : List UsageRecord :=
  [mkRec ⟨2024, 3, 15, 6, 10, 0⟩ "s1" "claude-3-5-sonnet-20241022" 1 0 0 0,
   mkRec ⟨2024, 3, 15, 7, 45, 0⟩ "s1" "claude-3-5-sonnet-20241022" 2 0 0 0,
   mkRec ⟨2024, 3, 15, 11, 2, 0⟩ "s2" "claude-3-5-sonnet-20241022" 4 0 0 0]

/-- Clock instant used for the blocks fixture. -/
def blockNow : PyDateTime := ⟨2024, 3, 15, 6, 30, 0⟩

/-- Clock instant used for the staleness fixture. -/
def pricingNow : PyDateTime := ⟨2024, 1, 20, 12, 0, 0⟩

/-- Calculator whose pricing was last refreshed 8 days before pricingNow. -/
def staleCalc8 : CostCalculator :=
  ⟨"auto", false, "USD", DEFAULT_PRICING, some ⟨2024, 1, 12, 12, 0, 0⟩⟩

/-- Calculator whose pricing was last refreshed 6 days before pricingNow. -/
def freshCalc6 : CostCalculator :=
  ⟨"auto", false, "USD", DEFAULT_PRICING, some ⟨2024, 1, 14, 12, 0, 0⟩⟩

/-- Specification-side reading of the session-id claim: the raw value of the
first present-and-truthy field among a list of field names, in order. -/
def firstTruthyField (data : List (String × JsonVal)) : List String → Option JsonVal
  | [] => none
  | f :: rest =>
    match jGet data f with
    | some v => if v.truthy then some v else firstTruthyField data rest
    | none => firstTruthyField data rest

/-- Specification-side reading of the session-id claim over the five session
fields of the claim, in the claimed order. -/
def firstTruthySessionField (data : List (String × JsonVal)) : Option JsonVal :=
  firstTruthyField data ["sessionId", "session_id", "conversation_id", "thread_id", "id"]

/-- Cost attributed to a model by a breakdown map, 0 when the model has no
entry. -/
def breakdownCost (bd : List (String × ModelStats)) (m : String) : ℚ :=
  ((jLookup bd m).map ModelStats.cost).getD 0

/-- JSON object with an extractable timestamp and model but no token
structure of any recognized schema. -/
def noTokensData : List (String × JsonVal) :=
  [("timestamp", .num 0), ("model", .str "m")]

/-- JSON object with an extractable timestamp and model and an empty
top-level usage object. -/
def emptyUsageData : List (String × JsonVal) :=
  [("timestamp", .num 0), ("model", .str "m"), ("usage", .obj [])]

/-- Record whose model resolves to no pricing under the default table. -/
def unknownModelRecord : UsageRecord :=
  mkRec ⟨2024, 3, 15, 9, 0, 0⟩ "s9" "gpt-4" 10 20 30 40

/-- Token total over all records of a grouping. -/
def groupsTokenSum {κ : Type} (groups : List (κ × List UsageRecord)) : Int :=
  (groups.map (fun g => (g.2.map UsageRecord.total_tokens).sum)).sum

/-! ## Helper lemmas -/

/-- An unpriceable record changes only the failure counter in one step of
calculate_total_cost. -/
theorem totalCostStep_none (c : CostCalculator) (acc : TotalCosts)
    (r : UsageRecord) (h : c.calculate_cost r = none) :
    totalCostStep c acc r =
      { acc with failed_calculations := acc.failed_calculations + 1 } := by
  unfold totalCostStep
  rw [h]

/-- An unpriceable record leaves the cost of a breakdown entry unchanged. -/
theorem addRecord_cost_none (c : CostCalculator) (s : ModelStats)
    (r : UsageRecord) (h : c.calculate_cost r = none) :
    (s.addRecord c r).cost = s.cost := by
  unfold ModelStats.addRecord
  rw [h]

/-- Adding an unpriceable record to a breakdown changes no model's
attributed cost. -/
theorem breakdownCost_addToBreakdown_none (c : CostCalculator)
    (bd : List (String × ModelStats)) (r : UsageRecord) (m : String)
    (h : c.calculate_cost r = none) :
    breakdownCost (addToBreakdown c bd r) m = breakdownCost bd m := by
  induction bd with
  | nil =>
    by_cases hm : r.model = m
    · simp [addToBreakdown, breakdownCost, jLookup, hm,
        addRecord_cost_none c _ r h, emptyModelStats]
    · simp [addToBreakdown, breakdownCost, jLookup, hm]
  | cons kv rest ih =>
    obtain ⟨k, s⟩ := kv
    simp only [addToBreakdown]
    by_cases hk : k = r.model
    · simp only [hk, if_pos rfl]
      by_cases hm : r.model = m
      · simp [breakdownCost, jLookup, hm, addRecord_cost_none c s r h]
      · simp [breakdownCost, jLookup, hm]
    · simp only [if_neg hk]
      by_cases hm : k = m
      · simp [breakdownCost, jLookup, hm]
      · simpa [breakdownCost, jLookup, hm] using ih

/-- Stable insertion permutes to consing. -/
theorem insertStable_perm {α : Type} (le : α → α → Bool) (x : α) (l : List α) :
    (insertStable le x l).Perm (x :: l) := by
  induction l with
  | nil => exact List.Perm.refl _
  | cons y ys ih =>
    simp only [insertStable]
    by_cases h : le y x
    · simp only [h, if_true]
      exact (ih.cons y).trans (List.Perm.swap x y ys)
    · simp only [h, if_false]
      exact List.Perm.refl _

/-- Folding stable insertion permutes the input onto the accumulator. -/
theorem stableSort_foldl_perm {α : Type} (le : α → α → Bool)
    (l : List α) : ∀ acc : List α,
    (l.foldl (fun a x => insertStable le x a) acc).Perm (l ++ acc) := by
  induction l with
  | nil => intro acc; simp
  | cons x xs ih =>
    intro acc
    simp only [List.foldl_cons, List.cons_append]
    exact ((ih (insertStable le x acc)).trans
      (List.Perm.append_left xs (insertStable_perm le x acc))).trans
      List.perm_middle

/-- The stable sort is a permutation of its input. -/
theorem stableSort_perm {α : Type} (le : α → α → Bool) (l : List α) :
    (stableSort le l).Perm l := by
  simpa [stableSort] using stableSort_foldl_perm le l []

/-- Sorting preserves any mapped integer sum. -/
theorem stableSort_map_sum {α : Type} (le : α → α → Bool) (f : α → Int)
    (l : List α) : ((stableSort le l).map f).sum = (l.map f).sum :=
  ((stableSort_perm le l).map f).sum_eq

/-- Appending a record to its group adds its tokens to the grouping total. -/
theorem appendToGroup_tokenSum {κ : Type} [DecidableEq κ]
    (groups : List (κ × List UsageRecord)) (k : κ) (r : UsageRecord) :
    groupsTokenSum (appendToGroup groups k r) =
      groupsTokenSum groups + r.total_tokens := by
  induction groups with
  | nil => simp [appendToGroup, groupsTokenSum]
  | cons g rest ih =>
    obtain ⟨k1, recs⟩ := g
    simp only [appendToGroup]
    by_cases h : k1 = k
    · simp only [h, if_pos rfl]
      simp [groupsTokenSum]
      ring
    · simp only [if_neg h]
      simp only [groupsTokenSum, List.map_cons, List.sum_cons] at ih ⊢
      omega

/-- Grouping preserves the token total of the grouped records. -/
theorem groupByKey_tokenSum {κ : Type} [DecidableEq κ] (key : UsageRecord → κ)
    (records : List UsageRecord) :
    groupsTokenSum (groupByKey key records) =
      (records.map UsageRecord.total_tokens).sum := by
  suffices h : ∀ acc,
      groupsTokenSum (records.foldl (fun gs r => appendToGroup gs (key r) r) acc) =
        groupsTokenSum acc + (records.map UsageRecord.total_tokens).sum by
    simpa [groupByKey, groupsTokenSum] using h []
  induction records with
  | nil => intro acc; simp
  | cons r rs ih =>
    intro acc
    simp only [List.foldl_cons, List.map_cons, List.sum_cons]
    rw [ih (appendToGroup acc (key r) r), appendToGroup_tokenSum]
    ring

/-- The entries built from a grouping carry the grouping token total. -/
theorem entries_tokenSum {κ : Type} (groups : List (κ × List UsageRecord))
    (c : CostCalculator) (anchor : κ × List UsageRecord → PyDateTime) :
    ((groups.map (fun g => create_report_entry c (anchor g) g.2)).map
        ReportEntry.total_tokens).sum = groupsTokenSum groups := by
  simp [List.map_map, create_report_entry, groupsTokenSum, Function.comp_def]

/-- The date sort preserves the entry token sum. -/
theorem sortEntries_tokenSum (entries : List ReportEntry) (order : String) :
    ((sortEntriesByDate entries order).map ReportEntry.total_tokens).sum =
      (entries.map ReportEntry.total_tokens).sum := by
  unfold sortEntriesByDate
  by_cases h : order = "desc" <;> simp [h, stableSort_map_sum]

/-! ## Claim theorems -/

/-- C1: whenever the model of a record resolves to a pricing entry,
calculate_cost returns the calculation whose four components are
(tokens / 1000) times the per-1k rate of the corresponding bucket, whose
total_cost is the sum of the four components, and whose currency is the one
of the resolved pricing entry. -/
theorem calculate_cost_formula (c : CostCalculator) (r : UsageRecord)
    (p : ModelPricing) (h : c.get_model_pricing r.model = some p) :
    c.calculate_cost r = some
      ⟨((r.input_tokens : ℚ) / 1000) * p.input_price_per_1k,
       ((r.output_tokens : ℚ) / 1000) * p.output_price_per_1k,
       ((r.cache_creation_tokens : ℚ) / 1000) * p.cache_creation_price_per_1k,
       ((r.cache_read_tokens : ℚ) / 1000) * p.cache_read_price_per_1k,
       ((r.input_tokens : ℚ) / 1000) * p.input_price_per_1k +
         ((r.output_tokens : ℚ) / 1000) * p.output_price_per_1k +
         ((r.cache_creation_tokens : ℚ) / 1000) * p.cache_creation_price_per_1k +
         ((r.cache_read_tokens : ℚ) / 1000) * p.cache_read_price_per_1k,
       p.currency, r.model⟩ := by
  unfold CostCalculator.calculate_cost
  rw [h]

/-- C1 witness: the sonnet record with 1000 input and 500 output tokens,
priced at 3 and 15 per 1k, costs 3 + 7.5 = 10.5 in the currency USD of the
pricing entry (the calculator itself is configured with currency EUR). -/
theorem calculate_cost_formula_witness :
    sonnetCalc.get_model_pricing sonnetExampleRecord.model = some sonnetDefaultPricing ∧
    sonnetCalc.currency = "EUR" ∧
    sonnetCalc.calculate_cost sonnetExampleRecord =
      some ⟨3, 15 / 2, 0, 0, 21 / 2, "USD", "claude-3-5-sonnet-20241022"⟩ := by
  have hp : sonnetCalc.get_model_pricing sonnetExampleRecord.model =
      some sonnetDefaultPricing := rfl
  refine ⟨hp, rfl, ?_⟩
  rw [calculate_cost_formula sonnetCalc sonnetExampleRecord sonnetDefaultPricing hp]
  norm_num [sonnetExampleRecord, mkRec, sonnetDefaultPricing]

/-- C4: pricing resolution order of get_model_pricing. (1) An exact key of
the pricing table returns that entry. (2) Otherwise, when some cached key
matches the queried name as a substring in either direction, some such entry
is returned. (3) Otherwise a lower-cased name containing opus, sonnet or
haiku returns the fixed built-in default of that family (in the precedence
order of the source). (4) Otherwise no pricing is returned, and
calculate_cost of every record with that model yields no result. -/
theorem get_model_pricing_resolution (c : CostCalculator) (name : String) :
    (∀ p, jLookup c.pricing_cache name = some p →
      c.get_model_pricing name = some p) ∧
    (jLookup c.pricing_cache name = none →
      (∃ kv ∈ c.pricing_cache,
          (strContains kv.1 name || strContains name kv.1) = true) →
      ∃ kv ∈ c.pricing_cache,
        (strContains kv.1 name || strContains name kv.1) = true ∧
          c.get_model_pricing name = some kv.2) ∧
    (jLookup c.pricing_cache name = none →
      (∀ kv ∈ c.pricing_cache,
          (strContains kv.1 name || strContains name kv.1) = false) →
      ((strContains (pyLower name) "opus" = true →
          c.get_model_pricing name = some opusDefaultPricing) ∧
       (strContains (pyLower name) "opus" = false →
          strContains (pyLower name) "sonnet" = true →
          c.get_model_pricing name = some sonnetDefaultPricing) ∧
       (strContains (pyLower name) "opus" = false →
          strContains (pyLower name) "sonnet" = false →
          strContains (pyLower name) "haiku" = true →
          c.get_model_pricing name = some haikuDefaultPricing) ∧
       (strContains (pyLower name) "opus" = false →
          strContains (pyLower name) "sonnet" = false →
          strContains (pyLower name) "haiku" = false →
          c.get_model_pricing name = none ∧
          ∀ r : UsageRecord, r.model = name → c.calculate_cost r = none))) := by
  refine ⟨?_, ?_, ?_⟩
  · intro p h
    unfold CostCalculator.get_model_pricing
    rw [h]
  · intro h1 h2
    have hs : (c.pricing_cache.find?
        (fun kv => strContains kv.1 name || strContains name kv.1)).isSome := by
      rw [List.find?_isSome]
      obtain ⟨kv, hmem, hkv⟩ := h2
      exact ⟨kv, hmem, hkv⟩
    obtain ⟨kv, hfind⟩ := Option.isSome_iff_exists.mp hs
    have hpkv := List.find?_some hfind
    refine ⟨kv, List.mem_of_find?_eq_some hfind, hpkv, ?_⟩
    unfold CostCalculator.get_model_pricing
    rw [h1, hfind]
  · intro h1 h2
    have hfn : c.pricing_cache.find?
        (fun kv => strContains kv.1 name || strContains name kv.1) = none := by
      rw [List.find?_eq_none]
      intro kv hmem
      simp [h2 kv hmem]
    have hmain : c.get_model_pricing name =
        (if strContains (pyLower name) "opus" = true then
          jLookup DEFAULT_PRICING "claude-3-opus-20240229"
        else if strContains (pyLower name) "sonnet" = true then
          jLookup DEFAULT_PRICING "claude-3-5-sonnet-20241022"
        else if strContains (pyLower name) "haiku" = true then
          jLookup DEFAULT_PRICING "claude-3-haiku-20240307"
        else none) := by
      unfold CostCalculator.get_model_pricing
      rw [h1, hfn]
    refine ⟨?_, ?_, ?_, ?_⟩
    · intro hop
      rw [hmain, if_pos hop]
      rfl
    · intro hop hson
      rw [hmain, if_neg (by simp [hop]), if_pos hson]
      rfl
    · intro hop hson hhai
      rw [hmain, if_neg (by simp [hop]), if_neg (by simp [hson]), if_pos hhai]
      rfl
    · intro hop hson hhai
      have hnone : c.get_model_pricing name = none := by
        rw [hmain, if_neg (by simp [hop]), if_neg (by simp [hson]),
          if_neg (by simp [hhai])]
      refine ⟨hnone, fun r hr => ?_⟩
      unfold CostCalculator.calculate_cost
      rw [hr, hnone]

/-- C4 witness: over the default pricing table, an exact key resolves to its
own entry, a name matching no key but containing opus in lower case resolves
to the built-in opus default, and a name matching nothing resolves to no
pricing at all, making the cost of a record with that model absent. -/
theorem get_model_pricing_resolution_witness :
    (jLookup sonnetCalc.pricing_cache "claude-3-opus-20240229" =
        some opusDefaultPricing ∧
      sonnetCalc.get_model_pricing "claude-3-opus-20240229" =
        some opusDefaultPricing) ∧
    (strContains (pyLower "OPUS-NEXT") "opus" = true ∧
      sonnetCalc.get_model_pricing "OPUS-NEXT" = some opusDefaultPricing) ∧
    (sonnetCalc.get_model_pricing "gpt-4" = none ∧
      sonnetCalc.calculate_cost (mkRec blockNow "s" "gpt-4" 1 2 3 4) = none) := by
  refine ⟨⟨rfl, ?_⟩, ⟨rfl, ?_⟩, ?_, ?_⟩
  · exact (get_model_pricing_resolution sonnetCalc "claude-3-opus-20240229").1
      opusDefaultPricing rfl
  · exact (((get_model_pricing_resolution sonnetCalc "OPUS-NEXT").2.2
      rfl (by decide)).1) rfl
  · exact ((((get_model_pricing_resolution sonnetCalc "gpt-4").2.2
      rfl (by decide)).2.2.2) rfl rfl rfl).1
  · exact ((((get_model_pricing_resolution sonnetCalc "gpt-4").2.2
      rfl (by decide)).2.2.2) rfl rfl rfl).2 (mkRec blockNow "s" "gpt-4" 1 2 3 4) rfl

/-- C6: every record is assigned to the block starting on its own calendar
date at hour (hour div 5) times 5 with zero minutes and seconds; three
records at 06:10, 07:45 and 11:02 of the same date produce exactly the two
block entries 05:00 (aggregating the first two records) and 10:00 (the
third). -/
theorem block_start_assignment :
    (∀ ts : PyDateTime, get_block_start ts =
        ⟨ts.year, ts.month, ts.day, (ts.hour.fdiv 5) * 5, 0, 0⟩) ∧
    ((generate_blocks_report sonnetCalc blockRecords none none "asc" blockNow).map
        BlockReportEntry.block_start =
      [⟨2024, 3, 15, 5, 0, 0⟩, ⟨2024, 3, 15, 10, 0, 0⟩]) ∧
    ((generate_blocks_report sonnetCalc blockRecords none none "asc" blockNow).map
        BlockReportEntry.total_tokens = [3, 4]) := by
  exact ⟨fun ts => rfl, by decide, by decide⟩

/-- C7: with the default max age of 7 days and a recorded last refresh, the
staleness check reports stale exactly when now minus the last refresh
exceeds 7 days. -/
theorem is_pricing_stale_iff (c : CostCalculator) (now lu : PyDateTime)
    (h : c.last_pricing_update = some lu) :
    c.is_pricing_stale now 7 = true ↔ dtSub now lu > 7 * 86400 := by
  unfold CostCalculator.is_pricing_stale
  rw [h]
  simp [dtSub]

/-- C7 witness: a last refresh 8 days in the past is stale, one 6 days in
the past is not. -/
theorem is_pricing_stale_iff_witness :
    (staleCalc8.last_pricing_update = some ⟨2024, 1, 12, 12, 0, 0⟩ ∧
      staleCalc8.is_pricing_stale pricingNow 7 = true) ∧
    (freshCalc6.last_pricing_update = some ⟨2024, 1, 14, 12, 0, 0⟩ ∧
      freshCalc6.is_pricing_stale pricingNow 7 = false) := by
  constructor
  · exact ⟨rfl,
      (is_pricing_stale_iff staleCalc8 pricingNow ⟨2024, 1, 12, 12, 0, 0⟩ rfl).mpr
        (by decide)⟩
  · refine ⟨rfl, ?_⟩
    have h := is_pricing_stale_iff freshCalc6 pricingNow ⟨2024, 1, 14, 12, 0, 0⟩ rfl
    have hn : ¬ dtSub pricingNow ⟨2024, 1, 14, 12, 0, 0⟩ > 7 * 86400 := by decide
    cases hb : freshCalc6.is_pricing_stale pricingNow 7
    · rfl
    · exact absurd (h.mp hb) hn

/-- C3 counterexample: a JSON object carrying a parseable timestamp and a
truthy model but no token field of any recognized schema is rejected by
normalization, refuting that a record is produced exactly when a timestamp
and a model can be extracted. -/
theorem parse_usage_record_counterexample :
    (extract_timestamp noTokensData).isSome = true ∧
    (extract_model noTokensData).isSome = true ∧
    parse_usage_record noTokensData "" = none := by
  exact ⟨rfl, rfl, rfl⟩

/-- C3 amended: normalization produces a record exactly when the timestamp,
model and token extractions all succeed (and the project-info step does not
raise); within a recognized token structure, absent token fields default to
0 without rejecting the record, as the empty-usage object shows. -/
theorem parse_usage_record_amended (data : List (String × JsonVal)) (fp : String) :
    ((parse_usage_record data fp).isSome ↔
      (extract_timestamp data).isSome ∧ (extract_model data).isSome ∧
        (extract_tokens data).isSome ∧ (extract_project_info data fp).isSome) ∧
    parse_usage_record emptyUsageData "" =
      some ⟨⟨1970, 1, 1, 0, 0, 0⟩, "unknown", "m", 0, 0, 0, 0,
            none, none, none, none⟩ := by
  refine ⟨?_, rfl⟩
  cases hts : extract_timestamp data
  · simp [parse_usage_record, hts]
  · cases hm : extract_model data
    · simp [parse_usage_record, hts, hm]
    · cases htok : extract_tokens data
      · simp [parse_usage_record, hts, hm, htok]
      · cases hpi : extract_project_info data fp
        · simp [parse_usage_record, hts, hm, htok, hpi]
        · simp [parse_usage_record, hts, hm, htok, hpi]

/-- Fallback loop of the session-id extraction agrees with the
first-truthy-field reading over any field list. -/
theorem sessionFallback_eq_firstTruthy (data : List (String × JsonVal))
    (fs : List String) :
    sessionFallback data fs =
      (match firstTruthyField data fs with
       | some v => pyStr v
       | none => "unknown") := by
  induction fs with
  | nil => rfl
  | cons f rest ih =>
    simp only [sessionFallback, firstTruthyField]
    cases h : jGet data f with
    | none => simpa [h] using ih
    | some v =>
      by_cases hv : v.truthy
      · simp [h, hv]
      · simpa [h, hv] using ih

/-- C10 counterexample: the object whose sessionId field holds the truthy
string unknown makes the extraction return unknown even though a session
field is present with a truthy value, refuting the exactly-when clause of
the claim. -/
theorem extract_session_id_counterexample :
    (firstTruthySessionField [("sessionId", JsonVal.str "unknown")]).isSome = true ∧
    extract_session_id [("sessionId", JsonVal.str "unknown")] = "unknown" := by
  exact ⟨rfl, rfl⟩

/-- C10 amended: session-id extraction returns the Python str of the first
truthy field among sessionId, session_id, conversation_id, thread_id, id in
that order, and the sentinel unknown when none is truthy; the sentinel
coincides with a genuine value when that first truthy value itself reads
unknown. A record with only a message id is therefore grouped under that
id. -/
theorem extract_session_id_amended (data : List (String × JsonVal)) :
    (extract_session_id data =
      (match firstTruthySessionField data with
       | some v => pyStr v
       | none => "unknown")) ∧
    extract_session_id [("timestamp", .num 0), ("id", .str "msg-42")] = "msg-42" := by
  refine ⟨?_, rfl⟩
  have hstep : firstTruthySessionField data =
      (match jGet data "sessionId" with
       | some v =>
         if v.truthy then some v
         else firstTruthyField data ["session_id", "conversation_id", "thread_id", "id"]
       | none =>
         firstTruthyField data ["session_id", "conversation_id", "thread_id", "id"]) := rfl
  rw [hstep]
  simp only [extract_session_id]
  cases h : jGet data "sessionId" with
  | none =>
    simp only [h]
    exact sessionFallback_eq_firstTruthy data _
  | some v =>
    by_cases hv : v.truthy
    · simp [h, hv]
    · simp only [h, hv, Bool.false_eq_true, if_false]
      exact sessionFallback_eq_firstTruthy data _

/-- C5: appending a record whose model resolves to no pricing leaves the
aggregate cost totals, the model-cost breakdown of calculate_total_cost and
every model's attributed cost in the report-entry breakdown unchanged, while
the record's tokens enter the report-entry token total and the
failed-calculation counter of that generation grows by exactly one. -/
theorem unresolved_record_exclusion (c : CostCalculator)
    (records : List UsageRecord) (r : UsageRecord) (d : PyDateTime)
    (h : c.calculate_cost r = none) :
    (c.calculate_total_cost (records ++ [r])).failed_calculations =
        (c.calculate_total_cost records).failed_calculations + 1 ∧
    (c.calculate_total_cost (records ++ [r])).total_cost =
        (c.calculate_total_cost records).total_cost ∧
    (c.calculate_total_cost (records ++ [r])).model_breakdown =
        (c.calculate_total_cost records).model_breakdown ∧
    (create_report_entry c d (records ++ [r])).total_tokens =
        (create_report_entry c d records).total_tokens + r.total_tokens ∧
    (create_report_entry c d (records ++ [r])).total_cost =
        (create_report_entry c d records).total_cost ∧
    ∀ m : String,
      breakdownCost (create_report_entry c d (records ++ [r])).model_breakdown m =
        breakdownCost (create_report_entry c d records).model_breakdown m := by
  have hfold : c.calculate_total_cost (records ++ [r]) =
      totalCostStep c (c.calculate_total_cost records) r := by
    unfold CostCalculator.calculate_total_cost
    rw [List.foldl_append]
    rfl
  have hstep := totalCostStep_none c (c.calculate_total_cost records) r h
  have hbd : (create_report_entry c d (records ++ [r])).model_breakdown =
      addToBreakdown c (create_report_entry c d records).model_breakdown r := by
    simp [create_report_entry, List.foldl_append]
  refine ⟨?_, ?_, ?_, ?_, ?_, ?_⟩
  · rw [hfold, hstep]
  · rw [hfold, hstep]
  · rw [hfold, hstep]
  · show ((records ++ [r]).map UsageRecord.total_tokens).sum =
      (records.map UsageRecord.total_tokens).sum + r.total_tokens
    simp
  · show (c.calculate_total_cost (records ++ [r])).total_cost =
      (c.calculate_total_cost records).total_cost
    rw [hfold, hstep]
  · intro m
    rw [hbd, breakdownCost_addToBreakdown_none c _ r m h]

/-- C5 witness: one sonnet record plus one gpt-4 record under the default
pricing table. -/
theorem unresolved_record_exclusion_witness :
    sonnetCalc.calculate_cost unknownModelRecord = none ∧
    (sonnetCalc.calculate_total_cost
        ([sonnetExampleRecord] ++ [unknownModelRecord])).failed_calculations =
      (sonnetCalc.calculate_total_cost [sonnetExampleRecord]).failed_calculations + 1 ∧
    (sonnetCalc.calculate_total_cost
        ([sonnetExampleRecord] ++ [unknownModelRecord])).total_cost =
      (sonnetCalc.calculate_total_cost [sonnetExampleRecord]).total_cost ∧
    (create_report_entry sonnetCalc blockNow
        ([sonnetExampleRecord] ++ [unknownModelRecord])).total_tokens =
      (create_report_entry sonnetCalc blockNow [sonnetExampleRecord]).total_tokens +
        unknownModelRecord.total_tokens ∧
    breakdownCost (create_report_entry sonnetCalc blockNow
        ([sonnetExampleRecord] ++ [unknownModelRecord])).model_breakdown "gpt-4" =
      breakdownCost (create_report_entry sonnetCalc blockNow
        [sonnetExampleRecord]).model_breakdown "gpt-4" := by
  have h : sonnetCalc.calculate_cost unknownModelRecord = none := rfl
  have main := unresolved_record_exclusion sonnetCalc [sonnetExampleRecord]
    unknownModelRecord blockNow h
  exact ⟨h, main.1, main.2.1, main.2.2.2.1, main.2.2.2.2.2 "gpt-4"⟩

/-- C2: daily, weekly and monthly report generation each preserve the token
total of the date-filtered input records, for every record list, date range,
week start and sort order. -/
theorem report_token_preservation (c : CostCalculator)
    (records : List UsageRecord) (sd ed : Option PyDateTime) (order : String)
    (wsd : Int) :
    ((generate_daily_report c records sd ed order).map
        ReportEntry.total_tokens).sum =
      ((filter_by_date_range records sd ed).map UsageRecord.total_tokens).sum ∧
    ((generate_weekly_report c records sd ed wsd order).map
        ReportEntry.total_tokens).sum =
      ((filter_by_date_range records sd ed).map UsageRecord.total_tokens).sum ∧
    ((generate_monthly_report c records sd ed order).map
        ReportEntry.total_tokens).sum =
      ((filter_by_date_range records sd ed).map UsageRecord.total_tokens).sum := by
  refine ⟨?_, ?_, ?_⟩
  · show ((sortEntriesByDate ((groupByKey
        (fun r => (r.timestamp.year, r.timestamp.month, r.timestamp.day))
        (filter_by_date_range records sd ed)).map
          (fun g => create_report_entry c ⟨g.1.1, g.1.2.1, g.1.2.2, 0, 0, 0⟩ g.2))
        order).map ReportEntry.total_tokens).sum = _
    rw [sortEntries_tokenSum, entries_tokenSum, groupByKey_tokenSum]
  · show ((sortEntriesByDate ((groupByKey
        (fun r => get_week_start r.timestamp wsd)
        (filter_by_date_range records sd ed)).map
          (fun g => create_report_entry c g.1 g.2))
        order).map ReportEntry.total_tokens).sum = _
    rw [sortEntries_tokenSum, entries_tokenSum, groupByKey_tokenSum]
  · show ((sortEntriesByDate ((groupByKey
        (fun r => (r.timestamp.year, r.timestamp.month))
        (filter_by_date_range records sd ed)).map
          (fun g => create_report_entry c ⟨g.1.1, g.1.2, 1, 0, 0, 0⟩ g.2))
        order).map ReportEntry.total_tokens).sum = _
    rw [sortEntries_tokenSum, entries_tokenSum, groupByKey_tokenSum]

/-- C8: a second run of load_usage_data returns exactly what the first run
returned (the cache path reproduces the computed path), and every aggregation
applied twice to the same arguments returns identical output, the embedded
pipeline being free of hidden state. -/
theorem two_run_determinism (dl : DataLoader) (c : CostCalculator)
    (records : List UsageRecord) (sd ed : Option PyDateTime) (order : String)
    (wsd : Int) (now : PyDateTime) :
    ((dl.load_usage_data false).2.load_usage_data false).1 =
        (dl.load_usage_data false).1 ∧
    generate_daily_report c records sd ed order =
        generate_daily_report c records sd ed order ∧
    generate_weekly_report c records sd ed wsd order =
        generate_weekly_report c records sd ed wsd order ∧
    generate_monthly_report c records sd ed order =
        generate_monthly_report c records sd ed order ∧
    generate_session_report c records sd ed order =
        generate_session_report c records sd ed order ∧
    generate_blocks_report c records sd ed order now =
        generate_blocks_report c records sd ed order now := by
  refine ⟨?_, rfl, rfl, rfl, rfl, rfl⟩
  unfold DataLoader.load_usage_data
  cases h : dl.usage_cache
  · simp [h]
  · simp [h]

/-- C9: evaluation of the report generators at contract-violating arguments.
With an end date before the start date the daily report silently returns the
empty list over a nonempty record set, and with the out-of-range week-start
value 9 the weekly report silently produces a normally-bucketed entry; no
error path exists in either function. -/
theorem no_fail_fast_on_invalid_arguments :
    blockRecords.length = 3 ∧
    generate_daily_report sonnetCalc blockRecords (some ⟨2024, 4, 1, 0, 0, 0⟩)
        (some ⟨2024, 3, 1, 0, 0, 0⟩) "desc" = [] ∧
    (generate_weekly_report sonnetCalc blockRecords none none 9 "asc").map
        ReportEntry.total_tokens = [7] ∧
    (generate_weekly_report sonnetCalc blockRecords none none 9 "asc").map
        ReportEntry.date = [⟨2024, 3, 13, 0, 0, 0⟩] := by
  refine ⟨rfl, by decide, by decide, by decide⟩

end CCUsage
